import Mathlib

/-!
Shallow embedding of the tgpawn game session engine (src/src/main.rs) and
verification of the spec claims against it.

The chess rules library (shakmaty) is the external Position Oracle of the spec
(section 6): the engine is embedded as a function parameterised over an `Oracle`
record whose fields mirror the shakmaty calls the source makes.  The SQLite
tables become lists of rows, each SQL statement a list transformation that
follows the statement text.  Every sqlx `execute`/`fetch` that is checked with
`?` may fail; the two store writes of the move branch take explicit failure
flags so that error-handling claims can be stated.  A `panic!`, `todo!` or
`.expect` shows up as the `panicked` result.
-/

set_option maxHeartbeats 1000000

namespace Tgpawn

/-- Side to move, as in the shakmaty `Color` type used by the source. -/
inductive Color where
  | white
  | black
deriving DecidableEq

/-- Game outcome, as in the shakmaty `Outcome` type: a draw, or decisive with a
winning color.  In chess a decisive outcome means the side that just moved
delivered mate, so the winning color is the opposite of the side to move. -/
inductive GameOutcome where
  | draw
  | decisive (winner : Color)
deriving DecidableEq

/-- The Position Oracle: the external rules library (shakmaty in the source).
`decode` models `fen.parse::<Fen>()` followed by
`into_position(CastlingMode::Standard)`; `none` means one of the two steps
fails.  `san` and `uci` model `San::from_ascii(..).to_move(..)` and
`Uci::from_ascii(..).to_move(..)`. -/
structure Oracle (B M : Type) where
  turn : B → Color
  san : String → B → Option M
  uci : String → B → Option M
  is_legal : B → M → Bool
  play_unchecked : B → M → B
  is_game_over : B → Bool
  outcome : B → Option GameOutcome
  encode : B → String
  decode : String → Option B
  to_uci : M → String

/-- Models `parse_move` from the source: try SAN first, then fall back to UCI. -/
def parse_move {B M : Type} (ora : Oracle B M) (text : String) (board : B) :
    Option M :=
  match ora.san text board with
  | some m => some m
  | none => ora.uci text board

/-- One row of the `games` table. -/
structure GameRow where
  id : Int
  w_id : Option Int
  b_id : Option Int
  winner : Option Int
  termination : Option Bool
  ended : Bool
  fen : String
deriving DecidableEq

/-- One row of the `moves` table.  The `ply` column holds a count, so it is
embedded as `Nat`. -/
structure MoveRow where
  game_id : Int
  ply : Nat
  uci : String
deriving DecidableEq

/-- The durable store: the three SQLite tables. -/
structure Db where
  users : List Int
  games : List GameRow
  moves : List MoveRow
deriving DecidableEq

def STARTING_FEN : String :=
  "rnbqkbnr/pppppppp/8/8/8/8/PPPPPPPP/RNBQKBNR w KQkq - 0 1"

/-- Models `insert or ignore into users (id) values ($1)`. -/
def insert_user (u : Int) (users : List Int) : List Int :=
  if u ∈ users then users else users ++ [u]

/-- Models `select id, w_id, b_id, winner, termination, fen from games
where (w_id = $1 or b_id = $1) and ended = 0` (first matching row).
A SQL comparison with NULL is not true, so a null slot never matches. -/
def find_playing_game (db : Db) (u : Int) : Option GameRow :=
  db.games.find? (fun g => decide ((g.w_id = some u ∨ g.b_id = some u) ∧ g.ended = false))

/-- Models `select id, w_id, b_id from games
where (b_id is null or w_id is null) and ended = 0 limit 1`. -/
def find_pairable (db : Db) : Option GameRow :=
  db.games.find? (fun g => decide ((g.b_id = none ∨ g.w_id = none) ∧ g.ended = false))

/-- The `moves` rows of one game, in insertion order. -/
def movesFor (gid : Int) (ms : List MoveRow) : List MoveRow :=
  ms.filter (fun m => decide (m.game_id = gid))

/-- Models `(select count(*) from moves where game_id = $1)`. -/
def count_moves (ms : List MoveRow) (gid : Int) : Nat :=
  (movesFor gid ms).length

/-- Fresh game id handed out by `insert into games ... returning id`
(the SQLite rowid: one past the largest id in use). -/
def fresh_id (db : Db) : Int :=
  1 + db.games.foldr (fun g acc => max g.id acc) 0

/-- Lookup in the board cache (`boards: HashMap<i64, Chess>`). -/
def lookupBoard {B : Type} (bs : List (Int × B)) (k : Int) : Option B :=
  match bs.find? (fun p => decide (p.1 = k)) with
  | some p => some p.2
  | none => none

/-- Store a board under a game id: overwrite the entry on a hit, append on a
miss.  Models both `entry(id).or_insert_with(..)` and the in-place mutation
done by `play_unchecked`. -/
def setBoard {B : Type} (bs : List (Int × B)) (k : Int) (v : B) : List (Int × B) :=
  if (bs.find? (fun p => decide (p.1 = k))).isSome then
    bs.map (fun p => if p.1 = k then (k, v) else p)
  else bs ++ [(k, v)]

/-- Models `boards.remove(&id)`. -/
def removeBoard {B : Type} (bs : List (Int × B)) (k : Int) : List (Int × B) :=
  bs.filter (fun p => decide (¬ p.1 = k))

/-- How one `handle_update` call ends: a normal return, a store error
propagated by `?`, or a process abort (`panic!`, `todo!`, `.expect`). -/
inductive HandleResult where
  | ok
  | dbError
  | panicked (msg : String)
deriving DecidableEq

/-- Result of one `handle_update` call: outcome, store, board cache, and the
messages sent (recipient, text) in order. -/
structure HandleOut (B : Type) where
  res : HandleResult
  db : Db
  boards : List (Int × B)
  sent : List (Int × String)
deriving DecidableEq

/-- Models `boards.entry(id).or_insert_with(|| fen.parse().expect("fen from db")
.into_position(CastlingMode::Standard).expect("valid initial position"))`:
the cached board on a hit, otherwise the decoded stored encoding, where
`none` means one of the two `.expect` calls aborts the process. -/
def get_or_decode {B M : Type} (ora : Oracle B M) (bs : List (Int × B))
    (row : GameRow) : Option B :=
  match lookupBoard bs row.id with
  | some b => some b
  | none => ora.decode row.fen

/-- Models `update games set w_id = $1, b_id = $2 where games.id = $3`. -/
def pair_update (db : Db) (gid w b : Int) : Db :=
  { db with games := db.games.map (fun g =>
      if g.id = gid then { g with w_id := some w, b_id := some b } else g) }

/-- Models `update games set ended = $1, winner = $2, termination = $3, fen = $4
where id = $1` — as written, the `where` clause reuses `$1`, the ended flag
(0 or 1 as a SQLite integer); the game id is bound fifth, to a placeholder the
statement never references.  So the rows updated are those whose id equals the
ended flag. -/
def update_game_row (ended : Bool) (winner : Option Int) (termination : Option Bool)
    (fen1 : String) (games : List GameRow) : List GameRow :=
  games.map (fun g =>
    if g.id = (if ended then (1 : Int) else 0) then
      { g with ended := ended, winner := winner, termination := termination, fen := fen1 }
    else g)

/-- The default match arm of `handle_update`: the move pipeline for a user with
an ongoing game `row`.  `fail_ins` and `fail_upd` make the two sqlx `execute`
calls (two separate autocommit statements in the source, no transaction)
return an error, which `?` propagates. -/
def run_move {B M : Type} (ora : Oracle B M) (fail_ins fail_upd : Bool) (db : Db)
    (bs : List (Int × B)) (user_id : Int) (text : String) (row : GameRow) :
    HandleOut B :=
  match get_or_decode ora bs row with
  | none => ⟨.panicked ("fen from db"), db, bs, []⟩
  | some board0 =>
    let bs1 := setBoard bs row.id board0
    if ¬ ((ora.turn board0 = Color.white ∧ row.w_id = some user_id) ∨
          (ora.turn board0 = Color.black ∧ row.b_id = some user_id)) then
      ⟨.ok, db, bs1, [(user_id, "Not your turn!")]⟩
    else
      match parse_move ora text board0 with
      | none => ⟨.ok, db, bs1, [(user_id, "This is not a valid move")]⟩
      | some m =>
        if ¬ ora.is_legal board0 m then
          ⟨.ok, db, bs1, [(user_id, "This move is not legal")]⟩
        else
          let board1 := ora.play_unchecked board0 m
          let bs2 := setBoard bs1 row.id board1
          let ended := ora.is_game_over board1
          let fen1 := ora.encode board1
          let winner : Option Int :=
            if ended then (if ora.turn board1 = Color.white then row.w_id else row.b_id)
            else none
          let termination : Option Bool :=
            match ora.outcome board1 with
            | none => none
            | some GameOutcome.draw => none
            | some (GameOutcome.decisive Color.black) => some true
            | some (GameOutcome.decisive Color.white) => some false
          if fail_ins then ⟨.dbError, db, bs2, []⟩
          else
            let db1 : Db := { db with
              moves := db.moves ++ [⟨row.id, count_moves db.moves row.id, ora.to_uci m⟩] }
            if fail_upd then ⟨.dbError, db1, bs2, []⟩
            else
              let db2 : Db := { db1 with games := update_game_row ended winner termination fen1 db1.games }
              let msg := "Played " ++ ora.to_uci m ++ ", FEN is now " ++ fen1
              let per : Int → List (Int × String) := fun c =>
                if ended then [(c, msg), (c, "Game is over")] else [(c, msg)]
              let sent := per (row.w_id.getD 0) ++ per (row.b_id.getD 0)
              let bs3 := if ended then removeBoard bs2 row.id else bs2
              ⟨.ok, db2, bs3, sent⟩

/-- The `"start"` branch: matchmaking.  `mpg` is the ongoing game already
fetched by `handle_update`. -/
def run_start {B : Type} (db : Db) (bs : List (Int × B)) (user_id : Int)
    (mpg : Option GameRow) : HandleOut B :=
  if mpg.isSome then
    ⟨.ok, db, bs, [(user_id, "You are already playing. Type `resign` to leave.")]⟩
  else
    match find_pairable db with
    | some g =>
      match g.w_id, g.b_id with
      | some w, none =>
        ⟨.ok, pair_update db g.id w user_id, bs,
          [(w, "You are white. Your turn!"),
           (user_id, "You are black. Waiting for opponent\x27s move.")]⟩
      | none, some b =>
        ⟨.ok, pair_update db g.id user_id b, bs,
          [(user_id, "You are white. Your turn!"),
           (b, "You are black. Waiting for opponent\x27s move.")]⟩
      | _, _ => ⟨.panicked ("oh how surprising! you are stupid!"), db, bs, []⟩
    | none =>
      ⟨.ok, { db with games := db.games ++
          [⟨fresh_id db, some user_id, none, none, none, false, STARTING_FEN⟩] }, bs,
        [(user_id, "Created a new game. Waiting for an opponent to join.")]⟩

/-- Models `handle_update` from src/src/main.rs for an inbound `NewMessage` that is
not outgoing: register the user, fetch the ongoing game, dispatch on the text.
The `"nuke"` branch runs `delete from games`, `delete from users`,
`delete from moves`; the `"resign"` branch is a `todo!` stub on both sides. -/
def handle_update {B M : Type} (ora : Oracle B M) (fail_ins fail_upd : Bool)
    (db : Db) (bs : List (Int × B)) (user_id : Int) (text : String) :
    HandleOut B :=
  let db0 : Db := { db with users := insert_user user_id db.users }
  let mpg := find_playing_game db0 user_id
  if text = "nuke" then
    ⟨.ok, ⟨[], [], []⟩, bs, []⟩
  else if text = "start" then
    run_start db0 bs user_id mpg
  else if text = "resign" then
    if mpg.isSome then ⟨.panicked ("todo: resign"), db0, bs, []⟩
    else ⟨.panicked ("todo: reject: need to join a game"), db0, bs, []⟩
  else
    match mpg with
    | none => ⟨.ok, db0, bs, [(user_id, "Type `start` to join a game")]⟩
    | some row => run_move ora fail_ins fail_upd db0 bs user_id text row

/-- A small concrete Position Oracle used to evaluate the engine on explicit
inputs.  Positions are counters: the side to move alternates (even = white),
every parsed move advances the counter by one, the game is over from 3 on, and
a decisive outcome names the side that just moved — as in chess, the opposite
of the side to move at the final position. -/
def toy : Oracle Nat Nat where
  turn b := if b % 2 = 0 then Color.white else Color.black
  san s _ := if s = "5" then some 5 else if s = "7" then some 7 else none
  uci s _ := if s = "5" then some 5 else if s = "7" then some 7 else none
  is_legal _ _ := true
  play_unchecked b _ := b + 1
  is_game_over b := decide (3 ≤ b)
  outcome b :=
    if 3 ≤ b then
      some (GameOutcome.decisive (if b % 2 = 1 then Color.white else Color.black))
    else none
  encode b := if b = 1 then "1" else if b = 3 then "3" else "?"
  decode s := if s = "0" then some 0 else if s = "2" then some 2 else none
  to_uci m := if m = 5 then "5" else if m = 7 then "7" else "?"

/-- An active game one ply away from mate by white (toy board 2). -/
def game1 : GameRow := ⟨1, some 10, some 20, none, none, false, "2"⟩

def db1 : Db := ⟨[10, 20], [game1], []⟩

/-- An active game at the toy starting board 0; its id 2 never equals the
ended flag. -/
def game2 : GameRow := ⟨2, some 10, some 20, none, none, false, "0"⟩

def db2 : Db := ⟨[10, 20], [game2], []⟩

/-- A pending game with both slots still empty. -/
def game0 : GameRow := ⟨1, none, none, none, none, false, STARTING_FEN⟩

def db0g : Db := ⟨[], [game0], []⟩

/-- An active game whose stored encoding the toy oracle cannot decode. -/
def gameX : GameRow := ⟨3, some 10, some 20, none, none, false, "x"⟩

def dbX : Db := ⟨[10, 20], [gameX], []⟩


/-! Helper lemmas. -/

/-- The moves of one game distribute over an append of the moves table. -/
theorem movesFor_append (g : Int) (ms : List MoveRow) (x : MoveRow) :
    movesFor g (ms ++ [x]) = movesFor g ms ++ (if x.game_id = g then [x] else []) := by
  by_cases hx : x.game_id = g <;> simp [movesFor, List.filter_append, hx]

/-- Section 8 of the spec: per game, the persisted ply indices are exactly
0, 1, 2, ... in order, with no gaps. -/
def pliesOk (ms : List MoveRow) : Prop :=
  ∀ gid : Int, (movesFor gid ms).map MoveRow.ply = List.range (movesFor gid ms).length

/-- Appending a move whose ply is the current per-game move count preserves the
gapless-plies invariant. -/
theorem pliesOk_append (ms : List MoveRow) (gid : Int) (s : String)
    (h : pliesOk ms) : pliesOk (ms ++ [⟨gid, count_moves ms gid, s⟩]) := by
  intro g
  rw [movesFor_append]
  by_cases hg : gid = g
  · subst hg
    simp only [if_pos rfl]
    rw [List.map_append, h gid, List.length_append]
    simp [count_moves, List.range_succ]
  · rw [if_neg hg]
    simp only [List.append_nil]
    exact h g

/-- A map by an id-preserving row transformation keeps every id present. -/
theorem mem_map_preserving_id (f : GameRow → GameRow) (hf : ∀ g, (f g).id = g.id)
    (l : List GameRow) (g : GameRow) (hg : g ∈ l) :
    ∃ g2 ∈ l.map f, g2.id = g.id :=
  ⟨f g, List.mem_map_of_mem f hg, hf g⟩

/-- The matchmaking branch never writes to the moves table. -/
theorem run_start_moves {B : Type} (db : Db) (bs : List (Int × B)) (u : Int)
    (mpg : Option GameRow) : (run_start db bs u mpg).db.moves = db.moves := by
  unfold run_start
  split
  · rfl
  · split
    · split <;> rfl
    · rfl

/-- The matchmaking branch only fills slots of an existing row or appends a
fresh row: every game id present before is present after. -/
theorem run_start_games_id {B : Type} (db : Db) (bs : List (Int × B)) (u : Int)
    (mpg : Option GameRow) (g : GameRow) (hg : g ∈ db.games) :
    ∃ g2 ∈ (run_start db bs u mpg).db.games, g2.id = g.id := by
  unfold run_start
  split
  · exact ⟨g, hg, rfl⟩
  · split
    · split
      · exact mem_map_preserving_id _ (fun g => by split <;> rfl) _ g hg
      · exact mem_map_preserving_id _ (fun g => by split <;> rfl) _ g hg
      · exact ⟨g, hg, rfl⟩
    · exact ⟨g, List.mem_append_left _ hg, rfl⟩

/-- The move pipeline either leaves the moves table alone or appends exactly
one record for the games row at a ply equal to the current per-game count. -/
theorem run_move_moves {B M : Type} (ora : Oracle B M) (fi fu : Bool) (db : Db)
    (bs : List (Int × B)) (u : Int) (text : String) (row : GameRow) :
    (run_move ora fi fu db bs u text row).db.moves = db.moves ∨
    ∃ s, (run_move ora fi fu db bs u text row).db.moves =
      db.moves ++ [⟨row.id, count_moves db.moves row.id, s⟩] := by
  unfold run_move
  split
  · exact Or.inl rfl
  · dsimp only
    split
    · exact Or.inl rfl
    · split
      · exact Or.inl rfl
      · split
        · exact Or.inl rfl
        · split
          · exact Or.inl rfl
          · split
            · exact Or.inr ⟨_, rfl⟩
            · exact Or.inr ⟨_, rfl⟩

/-- The move pipeline never removes a games row: every id present before is
present after. -/
theorem run_move_games_id {B M : Type} (ora : Oracle B M) (fi fu : Bool) (db : Db)
    (bs : List (Int × B)) (u : Int) (text : String) (row : GameRow)
    (g : GameRow) (hg : g ∈ db.games) :
    ∃ g2 ∈ (run_move ora fi fu db bs u text row).db.games, g2.id = g.id := by
  unfold run_move
  split
  · exact ⟨g, hg, rfl⟩
  · dsimp only
    split
    · exact ⟨g, hg, rfl⟩
    · split
      · exact ⟨g, hg, rfl⟩
      · split
        · exact ⟨g, hg, rfl⟩
        · split
          · exact ⟨g, hg, rfl⟩
          · split
            · exact ⟨g, hg, rfl⟩
            · exact mem_map_preserving_id _ (fun g => by split <;> split <;> rfl) _ g hg


/-! Claim theorems. -/

/-- Claim C4 (confirmed): for every inbound event, the gapless-plies invariant
of the moves table is preserved, and the moves table either stays as it was,
is emptied wholesale (the nuke debug command), or grows by exactly one record
whose ply equals the count of move records already persisted for that game at
transaction time — the ply is computed from the store inside the insert
statement, not taken from an in-memory counter, so per game the stored plies
are always 0, 1, 2, ... with no gaps. -/
theorem ply_indices_gapless {B M : Type} (ora : Oracle B M) (fi fu : Bool)
    (db : Db) (bs : List (Int × B)) (u : Int) (text : String)
    (h : pliesOk db.moves) :
    pliesOk (handle_update ora fi fu db bs u text).db.moves ∧
    ((handle_update ora fi fu db bs u text).db.moves = db.moves ∨
     (handle_update ora fi fu db bs u text).db.moves = [] ∨
     ∃ gid s, (handle_update ora fi fu db bs u text).db.moves =
       db.moves ++ [⟨gid, count_moves db.moves gid, s⟩]) := by
  unfold handle_update
  dsimp only
  split
  · exact ⟨fun g => rfl, Or.inr (Or.inl rfl)⟩
  · split
    · constructor
      · have := run_start_moves (B := B)
          { db with users := insert_user u db.users } bs u
          (find_playing_game { db with users := insert_user u db.users } u)
        rw [this]
        exact h
      · exact Or.inl (run_start_moves _ _ _ _)
    · split
      · split
        · exact ⟨h, Or.inl rfl⟩
        · exact ⟨h, Or.inl rfl⟩
      · split
        · exact ⟨h, Or.inl rfl⟩
        · rcases run_move_moves ora fi fu
            { db with users := insert_user u db.users } bs u text _ with heq | ⟨s, heq⟩
          · rw [heq]
            exact ⟨h, Or.inl rfl⟩
          · rw [heq]
            exact ⟨pliesOk_append _ _ _ h, Or.inr (Or.inr ⟨_, s, rfl⟩)⟩

/-- Closed witness for `ply_indices_gapless` at a concrete accepted move. -/
theorem ply_indices_gapless_witness :
    pliesOk db1.moves ∧
    (pliesOk (handle_update toy false false db1 [] 10 "7").db.moves ∧
     ((handle_update toy false false db1 [] 10 "7").db.moves = db1.moves ∨
      (handle_update toy false false db1 [] 10 "7").db.moves = [] ∨
      ∃ gid s, (handle_update toy false false db1 [] 10 "7").db.moves =
        db1.moves ++ [⟨gid, count_moves db1.moves gid, s⟩])) :=
  ⟨fun _ => rfl, ply_indices_gapless toy false false db1 [] 10 "7" (fun _ => rfl)⟩

/-- Claim C6 amended (the claim as stated is refuted by the nuke branch, see
the counterexample): for every inbound event other than the `nuke` debug
command, every Game record that existed before still exists afterwards (its id
is still present) and every Move record is still present — join, move and
resignation handling never delete history. -/
theorem games_never_deleted_except_nuke {B M : Type} (ora : Oracle B M)
    (fi fu : Bool) (db : Db) (bs : List (Int × B)) (u : Int) (text : String)
    (h : text ≠ "nuke") :
    (∀ g ∈ db.games, ∃ g2 ∈ (handle_update ora fi fu db bs u text).db.games,
       g2.id = g.id) ∧
    (∀ m ∈ db.moves, m ∈ (handle_update ora fi fu db bs u text).db.moves) := by
  unfold handle_update
  dsimp only
  rw [if_neg h]
  split
  · refine ⟨fun g hg => run_start_games_id _ _ _ _ g hg, fun m hm => ?_⟩
    have := run_start_moves (B := B)
      { db with users := insert_user u db.users } bs u
      (find_playing_game { db with users := insert_user u db.users } u)
    rw [this]
    exact hm
  · split
    · split
      · exact ⟨fun g hg => ⟨g, hg, rfl⟩, fun m hm => hm⟩
      · exact ⟨fun g hg => ⟨g, hg, rfl⟩, fun m hm => hm⟩
    · split
      · exact ⟨fun g hg => ⟨g, hg, rfl⟩, fun m hm => hm⟩
      · refine ⟨fun g hg => run_move_games_id ora fi fu _ bs u text _ g hg,
          fun m hm => ?_⟩
        rcases run_move_moves ora fi fu
            { db with users := insert_user u db.users } bs u text _ with heq | ⟨s, heq⟩
        · rw [heq]
          exact hm
        · rw [heq]
          exact List.mem_append_left _ hm

/-- Closed witness for `games_never_deleted_except_nuke` at a concrete move
event. -/
theorem games_never_deleted_witness :
    (("7" : String) ≠ "nuke") ∧
    ((∀ g ∈ db1.games, ∃ g2 ∈ (handle_update toy false false db1 [] 10 "7").db.games,
        g2.id = g.id) ∧
     (∀ m ∈ db1.moves, m ∈ (handle_update toy false false db1 [] 10 "7").db.moves)) :=
  ⟨by decide, games_never_deleted_except_nuke toy false false db1 [] 10 "7" (by decide)⟩


/-- Claim C7 amended (the claim as stated is refuted by the panic, see the
counterexample): the catch-all arm of the matchmaking slot match — reached
when the pairable row has both slots null; a row with both slots filled is
never returned by the pending-game query at all — aborts the process with a
`panic!` instead of signaling an `InvariantViolation` error; at the abort no
games row, moves row or cache entry has been modified (only the
user-registration insert precedes it). -/
theorem matchmaking_catchall_panics {B M : Type} (ora : Oracle B M)
    (fi fu : Bool) (db : Db) (bs : List (Int × B)) (u : Int) (g : GameRow)
    (h1 : find_playing_game { db with users := insert_user u db.users } u = none)
    (h2 : find_pairable { db with users := insert_user u db.users } = some g)
    (h3 : g.w_id = none) (h4 : g.b_id = none) :
    handle_update ora fi fu db bs u "start" =
      ⟨HandleResult.panicked ("oh how surprising! you are stupid!"),
       { db with users := insert_user u db.users }, bs, []⟩ := by
  have hn : ¬ (("start" : String) = "nuke") := by decide
  unfold handle_update
  dsimp only
  rw [if_neg hn, if_pos rfl]
  unfold run_start
  rw [h1, h2]
  rw [if_neg (by decide : ¬ ((none : Option GameRow).isSome = true))]
  dsimp only
  rw [h3, h4]

/-- Closed witness for `matchmaking_catchall_panics`. -/
theorem matchmaking_catchall_panics_witness :
    (find_playing_game { db0g with users := insert_user 7 db0g.users } 7 = none ∧
     find_pairable { db0g with users := insert_user 7 db0g.users } = some game0 ∧
     game0.w_id = none ∧ game0.b_id = none) ∧
    handle_update toy false false db0g [] 7 "start" =
      ⟨HandleResult.panicked ("oh how surprising! you are stupid!"),
       { db0g with users := insert_user 7 db0g.users }, [], []⟩ :=
  ⟨⟨by decide, by decide, rfl, rfl⟩,
   matchmaking_catchall_panics toy false false db0g [] 7 game0
     (by decide) (by decide) rfl rfl⟩

/-- Claim C8 amended (the claim as stated is refuted by the todo-panic, see
the counterexample): for every user with no non-terminal game, the resign
branch hits the unimplemented `todo!` stub and aborts the process instead of
signaling `NotPlaying`; no games row, moves row, cache entry or outbound
message is produced. -/
theorem resign_without_game_panics {B M : Type} (ora : Oracle B M)
    (fi fu : Bool) (db : Db) (bs : List (Int × B)) (u : Int)
    (h : find_playing_game { db with users := insert_user u db.users } u = none) :
    handle_update ora fi fu db bs u "resign" =
      ⟨HandleResult.panicked ("todo: reject: need to join a game"),
       { db with users := insert_user u db.users }, bs, []⟩ := by
  have hn : ¬ (("resign" : String) = "nuke") := by decide
  have hs : ¬ (("resign" : String) = "start") := by decide
  unfold handle_update
  dsimp only
  rw [if_neg hn, if_neg hs, if_pos rfl, h]
  rw [if_neg (by decide : ¬ ((none : Option GameRow).isSome = true))]

/-- Closed witness for `resign_without_game_panics`. -/
theorem resign_without_game_panics_witness :
    find_playing_game { db1 with users := insert_user 99 db1.users } 99 = none ∧
    handle_update toy false false db1 [] 99 "resign" =
      ⟨HandleResult.panicked ("todo: reject: need to join a game"),
       { db1 with users := insert_user 99 db1.users }, [], []⟩ :=
  ⟨by decide, resign_without_game_panics toy false false db1 [] 99 (by decide)⟩

/-- Claim C9 (confirmed): when the side to move on the board obtained for the
users ongoing game is not the color the user holds there, the move attempt is
rejected with the "Not your turn!" message and nothing changes: the games and
moves tables are untouched (only the unconditional user-registration insert
runs), and the board cache still holds exactly the pre-move board. -/
theorem wrong_turn_rejected {B M : Type} (ora : Oracle B M) (fi fu : Bool)
    (db : Db) (bs : List (Int × B)) (u : Int) (text : String) (row : GameRow)
    (b : B)
    (hn : text ≠ "nuke") (hs : text ≠ "start") (hr : text ≠ "resign")
    (hg : find_playing_game { db with users := insert_user u db.users } u = some row)
    (hb : get_or_decode ora bs row = some b)
    (ht : ¬ ((ora.turn b = Color.white ∧ row.w_id = some u) ∨
             (ora.turn b = Color.black ∧ row.b_id = some u))) :
    handle_update ora fi fu db bs u text =
      ⟨HandleResult.ok, { db with users := insert_user u db.users },
       setBoard bs row.id b, [(u, "Not your turn!")]⟩ := by
  unfold handle_update
  dsimp only
  rw [if_neg hn, if_neg hs, if_neg hr, hg]
  dsimp only
  unfold run_move
  rw [hb]
  dsimp only
  rw [if_pos ht]

/-- Closed witness for `wrong_turn_rejected`: black (user 20) tries to move
while it is whites turn. -/
theorem wrong_turn_rejected_witness :
    ((("5" : String) ≠ "nuke") ∧ (("5" : String) ≠ "start") ∧
     (("5" : String) ≠ "resign") ∧
     find_playing_game { db2 with users := insert_user 20 db2.users } 20 = some game2 ∧
     get_or_decode toy ([] : List (Int × Nat)) game2 = some 0 ∧
     ¬ ((toy.turn 0 = Color.white ∧ game2.w_id = some 20) ∨
        (toy.turn 0 = Color.black ∧ game2.b_id = some 20))) ∧
    handle_update toy false false db2 [] 20 "5" =
      ⟨HandleResult.ok, { db2 with users := insert_user 20 db2.users },
       setBoard ([] : List (Int × Nat)) game2.id 0, [(20, "Not your turn!")]⟩ :=
  ⟨⟨by decide, by decide, by decide, by decide, by decide, by decide⟩,
   wrong_turn_rejected toy false false db2 [] 20 "5" game2 0
     (by decide) (by decide) (by decide) (by decide) (by decide) (by decide)⟩

/-- Claim C10 (confirmed): on a board-cache miss, when the stored encoding of
the users ongoing game does not parse to a valid position, the two `.expect`
calls of the rebuild abort the process — the operation ends in a panic, with
no error signaled to the caller, no message sent, and the store and cache
untouched (only the user-registration insert runs). -/
theorem bad_stored_fen_panics {B M : Type} (ora : Oracle B M) (fi fu : Bool)
    (db : Db) (bs : List (Int × B)) (u : Int) (text : String) (row : GameRow)
    (hn : text ≠ "nuke") (hs : text ≠ "start") (hr : text ≠ "resign")
    (hg : find_playing_game { db with users := insert_user u db.users } u = some row)
    (hmiss : lookupBoard bs row.id = none)
    (hdec : ora.decode row.fen = none) :
    handle_update ora fi fu db bs u text =
      ⟨HandleResult.panicked ("fen from db"),
       { db with users := insert_user u db.users }, bs, []⟩ := by
  have hb : get_or_decode ora bs row = none := by
    unfold get_or_decode
    rw [hmiss]
    exact hdec
  unfold handle_update
  dsimp only
  rw [if_neg hn, if_neg hs, if_neg hr, hg]
  dsimp only
  unfold run_move
  rw [hb]

/-- Closed witness for `bad_stored_fen_panics`: game 3 stores an encoding the
toy oracle cannot decode. -/
theorem bad_stored_fen_panics_witness :
    ((("5" : String) ≠ "nuke") ∧ (("5" : String) ≠ "start") ∧
     (("5" : String) ≠ "resign") ∧
     find_playing_game { dbX with users := insert_user 10 dbX.users } 10 = some gameX ∧
     lookupBoard ([] : List (Int × Nat)) gameX.id = none ∧
     toy.decode gameX.fen = none) ∧
    handle_update toy false false dbX [] 10 "5" =
      ⟨HandleResult.panicked ("fen from db"),
       { dbX with users := insert_user 10 dbX.users }, [], []⟩ :=
  ⟨⟨by decide, by decide, by decide, by decide, by decide, by decide⟩,
   bad_stored_fen_panics toy false false dbX [] 10 "5" gameX
     (by decide) (by decide) (by decide) (by decide) (by decide) (by decide)⟩


/-- A store with one active game and one persisted move, for the nuke
counterexample. -/
def db2m : Db := ⟨[10, 20], [game2], [⟨2, 0, "5"⟩]⟩

/-- Claim C1 (code evaluation at the failing input): in game 1 white
(user 10) plays the mating move from board "2"; the Position Oracle
classifies the resulting position as decisive for white, yet the persisted
game row records the black player 20 — the mated side, the side to move after
the move — as `winner`, and stores a winner-color flag (`some false` for a
white win, `none` for a draw) as `termination` rather than a
checkmate-versus-draw reason. -/
theorem mate_persists_loser_as_winner :
    (handle_update toy false false db1 [] 10 "7").db.games =
      [⟨1, some 10, some 20, some 20, some false, true, "3"⟩] ∧
    toy.outcome 3 = some (GameOutcome.decisive Color.white) ∧
    game1.w_id = some 10 ∧ game1.b_id = some 20 := by
  decide

/-- Claim C2 (code evaluation at the failing input): the move insert and the
game update are two separate autocommit statements, not one transaction; when
the game update fails after the move insert succeeded, the operation aborts
with the move row already persisted and the game row untouched — partial
persistence. -/
theorem move_persistence_not_atomic :
    (handle_update toy false true db2 [] 10 "5").res = HandleResult.dbError ∧
    (handle_update toy false true db2 [] 10 "5").db.moves = [⟨2, 0, "5"⟩] ∧
    (handle_update toy false true db2 [] 10 "5").db.games = [game2] := by
  decide

/-- Claim C3 (code evaluation at the failing input): the cached board is
mutated by `play_unchecked` before any store write; when the move insert then
fails, the store is unchanged but the cache keeps the post-move board 1 while
the stored encoding still decodes to the pre-move board 0 — the cache holds a
move that was never committed, with no rollback or eviction. -/
theorem cache_ahead_of_store_on_failure :
    (handle_update toy true false db2 [] 10 "5").res = HandleResult.dbError ∧
    (handle_update toy true false db2 [] 10 "5").db = ⟨[10, 20], [game2], []⟩ ∧
    lookupBoard (handle_update toy true false db2 [] 10 "5").boards 2 = some 1 ∧
    toy.decode game2.fen = some 0 := by
  decide

/-- Claim C5 (code evaluation at the failing input): a successful, accepted,
non-ending move on game 2 leaves the stored game row — its `fen` included —
completely unchanged, because the update statement's `where id = $1` compares
the id to the ended flag (0) instead of the game id; decoding the stored
encoding before the move, applying the move and re-encoding yields "1", while
the stored encoding after the move is still "0". -/
theorem stored_encoding_roundtrip_broken :
    (handle_update toy false false db2 [] 10 "5").res = HandleResult.ok ∧
    (handle_update toy false false db2 [] 10 "5").db.moves = [⟨2, 0, "5"⟩] ∧
    (handle_update toy false false db2 [] 10 "5").db.games = [game2] ∧
    toy.encode (toy.play_unchecked 0 5) = "1" ∧
    toy.decode game2.fen = some 0 ∧ game2.fen = "0" ∧
    ¬ (("1" : String) = "0") := by
  decide

/-- Claim C6 counterexample: the store holds a game and one of its moves; the
inbound text event "nuke" runs `delete from games` (and `delete from users`,
`delete from moves`), after which the Game record and its Move record no
longer exist. -/
theorem nuke_deletes_all_games :
    db2m.games = [game2] ∧ db2m.moves = [⟨2, 0, "5"⟩] ∧
    (handle_update toy false false db2m [] 10 "nuke").db = ⟨[], [], []⟩ := by
  decide

/-- Claim C7 counterexample: matchmaking for user 7 finds the pending row of
`db0g` and reaches the catch-all slot arm (both slots null), which is a
`panic!` — the operation aborts the process instead of signaling an
`InvariantViolation` error. -/
theorem matchmaking_branch_is_a_panic :
    (handle_update toy false false db0g [] 7 "start").res =
      HandleResult.panicked ("oh how surprising! you are stupid!") := by
  decide

/-- Claim C8 counterexample: user 7 has no non-terminal game and sends
"resign"; the handler aborts in the `todo!` stub — it crashes rather than
signaling `NotPlaying`, and sends no message. -/
theorem resign_stub_is_a_panic :
    handle_update toy false false (⟨[], [], []⟩ : Db) [] 7 "resign" =
      ⟨HandleResult.panicked ("todo: reject: need to join a game"),
       ⟨[7], [], []⟩, [], []⟩ := by
  decide

end Tgpawn
